import Mathlib

/-!
Verification of the happy-thoughts API service (src/server.js).

The service exposes four endpoints over one entity type, `Thought`,
persisted in a document store. We embed the data model and the three
stateful handlers (list, create, like/unlike) as pure Lean functions over
an explicit store state, translated from `src/server.js`:

* `Thought` mirrors the mongoose model (lines 16-46): `message` with a
  required check and two length validators (>= 5, <= 140), `hearts` a
  number defaulting to 0 with a declared schema floor `min: 0`, and
  `createdAt` a date defaulting to the creation time. The store assigns
  the id.
* `getThoughts` mirrors the GET /thoughts handler (lines 62-75):
  sort by `createdAt` descending, limit 20. MongoDB leaves tie order to
  the store; we model it with a stable sort.
* `postThought` mirrors the POST /thoughts handler (lines 78-88): it
  builds a document from `req.body.message` only, saves it (running the
  schema validation), answers 201 with the document or 400 with the
  validation error. Mongoose's required check for string paths also
  rejects the empty string (`SchemaString.checkRequired` demands a
  non-empty string), so a present-but-empty message yields the required
  error, not the minimum-length one; the required validator runs first.
* `likeThought` mirrors the PUT /thoughts/:id/like handler (lines
  91-121): reject any action outside \x7b"add", "remove"\x7d with 400
  before any store access, otherwise apply `$inc \x7bhearts: ±1\x7d` via
  `findByIdAndUpdate` and answer 200 with the updated document, or 404
  when no document has that id. Although the call passes
  `runValidators: true`, mongoose update validators run only for
  `$set`/`$unset` (and the array operators) and ignore `$inc`, so the
  schema floor `min: 0` on `hearts` is NOT enforced on this path; the
  embedding therefore applies the increment unconditionally, and
  `hearts` is carried as an integer that may go negative.

Timestamps are modelled as naturals (milliseconds); the current time is
passed to `postThought` as an explicit `now` argument. String lengths
use Lean's `String.length`; the claims only involve lengths measured on
plain ASCII text, where this agrees with JavaScript's UTF-16 count.
-/

/-- A persisted Thought record: id (assigned by the store), message,
hearts counter, creation timestamp. -/
structure Thought where
  id : Nat
  message : String
  hearts : Int
  createdAt : Nat
deriving DecidableEq, Repr

/-- The document store: the list of persisted records plus the next id the
store will assign. -/
structure Store where
  thoughts : List Thought
  nextId : Nat
deriving DecidableEq, Repr

/-- The schema-declared invariant on `hearts` (`min: [0, "Hearts cannot be
negative"]`, server.js line 40). -/
def heartsFloor (t : Thought) : Prop :=
  0 ≤ t.hearts

/-- Validation outcome of the `message` path of the Thought schema. -/
inductive ValidationError where
  | required
  | tooShort (len : Nat)
  | tooLong (len : Nat)
deriving DecidableEq, Repr

/-- The message each validator renders on failure (server.js lines 19,
25-26, 32-33). The length validators interpolate the observed length of
the offending value. -/
def validationMessage : ValidationError → String
  | .required => "Message is required"
  | .tooShort n =>
      "Message must be at least 5 characters. Your message has "
        ++ toString n ++ " characters."
  | .tooLong n =>
      "The maximum length of a message is 140 characters. Your message has "
        ++ toString n ++ " characters."

/-- Validation of the `message` path: the required check (which for
string paths rejects absent and empty values), then the two custom
validators in declaration order (length >= 5, length <= 140); the first
failure is reported. -/
def validateMessage : Option String → Option ValidationError
  | none => some .required
  | some m =>
      if m.length = 0 then some .required
      else if m.length < 5 then some (.tooShort m.length)
      else if m.length > 140 then some (.tooLong m.length)
      else none

/-- A parsed JSON request body. The create handler reads only `message`
(server.js line 80: `new Thought(\x7b message: req.body.message \x7d)`);
the other fields a client might send are carried so we can state that
they are ignored. -/
structure RequestBody where
  message : Option String
  hearts : Option Int
  createdAt : Option Nat
deriving DecidableEq, Repr

/-- HTTP responses of the three stateful handlers. -/
inductive Response where
  | created (t : Thought)
  | ok (t : Thought)
  | okList (ts : List Thought)
  | badRequest (error : String)
  | validationFailed (e : ValidationError)
  | notFound
  | serverError (msg : String)
deriving DecidableEq, Repr

/-- HTTP status code of each response. -/
def Response.status : Response → Nat
  | .created _ => 201
  | .ok _ => 200
  | .okList _ => 200
  | .badRequest _ => 400
  | .validationFailed _ => 400
  | .notFound => 404
  | .serverError _ => 500

/-- Sort order of the list endpoint: newest first (`sort(\x7b createdAt:
-1 \x7d)`, server.js line 65). -/
def byRecent (a b : Thought) : Prop :=
  b.createdAt ≤ a.createdAt

instance : DecidableRel byRecent :=
  fun a b => inferInstanceAs (Decidable (b.createdAt ≤ a.createdAt))

instance : IsTotal Thought byRecent :=
  ⟨fun a b => Nat.le_total b.createdAt a.createdAt⟩

instance : IsTrans Thought byRecent :=
  ⟨fun _ _ _ hab hbc => Nat.le_trans hbc hab⟩

/-- GET /thoughts (server.js lines 62-75): all records sorted by
`createdAt` descending, limited to 20. -/
def getThoughts (store : Store) : Response :=
  .okList ((store.thoughts.insertionSort byRecent).take 20)

/-- POST /thoughts (server.js lines 78-88): build a document from
`req.body.message` only; on save the schema validates the message,
defaults `hearts` to 0 and `createdAt` to the current time, and the store
assigns the id; answer 201 with the document, or 400 with the validation
error and an unchanged store. -/
def postThought (store : Store) (body : RequestBody) (now : Nat) :
    Response × Store :=
  match body.message with
  | none => (.validationFailed .required, store)
  | some m =>
      match validateMessage (some m) with
      | some e => (.validationFailed e, store)
      | none =>
          let t : Thought :=
            { id := store.nextId, message := m, hearts := 0, createdAt := now }
          (.created t, { thoughts := store.thoughts ++ [t],
                         nextId := store.nextId + 1 })

/-- The effect of `$inc \x7b hearts: delta \x7d` on the stored records:
the record with the given id gets its counter shifted, every other record
is untouched. No validator runs on this path (see the header note on
mongoose update validators and `$inc`). -/
def applyInc (id : Nat) (delta : Int) (ts : List Thought) : List Thought :=
  ts.map fun t => if t.id == id then { t with hearts := t.hearts + delta } else t

/-- PUT /thoughts/:id/like (server.js lines 91-121): any action other
than "add" or "remove" is rejected with 400 before any store access;
otherwise `findByIdAndUpdate` applies `$inc \x7b hearts: ±1 \x7d` and
returns the updated document (`new: true`), 404 when no record has the
id. -/
def likeThought (store : Store) (id : Nat) (action : String) :
    Response × Store :=
  if !(["add", "remove"].contains action) then
    (.badRequest "Invalid action. Use \x27add\x27 or \x27remove\x27.", store)
  else
    let delta : Int := if action == "add" then 1 else -1
    let updated := applyInc id delta store.thoughts
    match updated.find? (fun t => t.id == id) with
    | none => (.notFound, store)
    | some t => (.ok t, { store with thoughts := updated })

/-- Running a sequence of like/unlike requests, threading the store. -/
def runLikes (store : Store) (ops : List (Nat × String)) : Store :=
  ops.foldl (fun s op => (likeThought s op.1 op.2).2) store

/-- Iterating the add action n times on one id. -/
def addNTimes (store : Store) (id : Nat) : Nat → Store
  | 0 => store
  | n + 1 => (likeThought (addNTimes store id n) id "add").2

/-- The fields of a record other than the hearts counter. -/
def skeleton (t : Thought) : Nat × String × Nat :=
  (t.id, t.message, t.createdAt)

/-- The store obtained by creating 25 thoughts in an empty store, the
i-th at time i. -/
def store25 : Store :=
  (List.range 25).foldl
    (fun s i => (postThought s ⟨some "A happy thought", none, none⟩ i).2)
    ⟨[], 0⟩

/-- The 20 most recent of those 25 creations, newest first. -/
def expected25 : List Thought :=
  ((List.range 25).reverse.take 20).map fun i =>
    { id := i, message := "A happy thought", hearts := 0, createdAt := i }

/-- A one-record store used to instantiate the like/unlike claims. -/
def store0 : Store :=
  ⟨[{ id := 0, message := "hello", hearts := 0, createdAt := 10 }], 1⟩

/-- The record held in `store0`. -/
def t0 : Thought :=
  { id := 0, message := "hello", hearts := 0, createdAt := 10 }

/-! ### Helper lemmas -/

theorem find?_applyInc (l : List Thought) (id : Nat) (delta : Int) :
    (applyInc id delta l).find? (fun u => u.id == id)
      = (l.find? (fun u => u.id == id)).map
          (fun t => { t with hearts := t.hearts + delta }) := by
  unfold applyInc
  rw [List.find?_map]
  have hp : (fun u : Thought => u.id == id) ∘
      (fun t : Thought =>
        if t.id == id then { t with hearts := t.hearts + delta } else t)
      = fun u : Thought => u.id == id := by
    funext t
    by_cases h : t.id = id <;> simp [h]
  rw [hp]
  cases hf : l.find? (fun u => u.id == id) with
  | none => rfl
  | some t =>
      have ht := @List.find?_some Thought (fun u => u.id == id) t l hf
      have ht2 : t.id = id := by simpa using ht
      simp [ht2]

theorem map_skeleton_applyInc (l : List Thought) (id : Nat) (delta : Int) :
    (applyInc id delta l).map skeleton = l.map skeleton := by
  unfold applyInc
  rw [List.map_map]
  apply List.map_congr_left
  intro a _
  by_cases h : a.id = id <;> simp [skeleton, h]

theorem likeThought_add_of_found (s : Store) (id : Nat) (t : Thought)
    (h : s.thoughts.find? (fun u => u.id == id) = some t) :
    likeThought s id "add"
      = (.ok { t with hearts := t.hearts + 1 },
         { s with thoughts := applyInc id 1 s.thoughts }) := by
  have hfind := find?_applyInc s.thoughts id 1
  rw [h] at hfind
  simp [likeThought, hfind]

theorem likeThought_remove_of_found (s : Store) (id : Nat) (t : Thought)
    (h : s.thoughts.find? (fun u => u.id == id) = some t) :
    likeThought s id "remove"
      = (.ok { t with hearts := t.hearts + -1 },
         { s with thoughts := applyInc id (-1) s.thoughts }) := by
  have hfind := find?_applyInc s.thoughts id (-1)
  rw [h] at hfind
  simp [likeThought, hfind]

theorem likeThought_frame (s : Store) (id : Nat) (a : String) :
    ((likeThought s id a).2).thoughts.map skeleton = s.thoughts.map skeleton := by
  unfold likeThought
  split
  · rfl
  · dsimp only
    split
    · rfl
    · exact map_skeleton_applyInc s.thoughts id _

theorem runLikes_frame (ops : List (Nat × String)) (store : Store) :
    (runLikes store ops).thoughts.map skeleton = store.thoughts.map skeleton := by
  induction ops generalizing store with
  | nil => rfl
  | cons op ops ih =>
      have h1 : runLikes store (op :: ops)
          = runLikes (likeThought store op.1 op.2).2 ops := rfl
      rw [h1, ih, likeThought_frame]

theorem addNTimes_find? (store : Store) (id : Nat) (t : Thought)
    (h : store.thoughts.find? (fun u => u.id == id) = some t) (n : Nat) :
    (addNTimes store id n).thoughts.find? (fun u => u.id == id)
      = some { t with hearts := t.hearts + n } := by
  induction n with
  | zero => simpa using h
  | succ n ih =>
      rw [addNTimes, likeThought_add_of_found _ id _ ih]
      dsimp only
      rw [find?_applyInc, ih]
      have harith : t.hearts + (n : Int) + 1 = t.hearts + ((n + 1 : Nat) : Int) := by
        push_cast
        ring
      simp [harith]

theorem postThought_created_inv (store : Store) (b : RequestBody)
    (now : Nat) (t : Thought) (s' : Store)
    (h : postThought store b now = (.created t, s')) :
    t.id = store.nextId ∧ t.hearts = 0 ∧ t.createdAt = now
    ∧ s'.thoughts = store.thoughts ++ [t]
    ∧ s'.nextId = store.nextId + 1 := by
  cases hb : b.message with
  | none => simp [postThought, hb] at h
  | some m =>
      cases hv : validateMessage (some m) with
      | some e => simp [postThought, hb, hv] at h
      | none =>
          simp only [postThought, hb, hv, Prod.mk.injEq,
            Response.created.injEq] at h
          obtain ⟨ht, hs⟩ := h
          subst ht
          subst hs
          simp

/-! ### Claims -/

/-- Claim C1: a create request is accepted (201 with a created record)
exactly when the message is present and its length lies in [5, 140]
inclusive; a length-4 message is rejected with the minimum-length error,
a length-141 message with the maximum-length error, and in both cases
the store is unchanged. -/
theorem c1_create_length_validation (store : Store) (now : Nat)
    (b : RequestBody) :
    ((∃ t s', postThought store b now = (.created t, s'))
        ↔ ∃ m, b.message = some m ∧ 5 ≤ m.length ∧ m.length ≤ 140)
    ∧ (∀ m, b.message = some m → m.length = 4 →
        postThought store b now = (.validationFailed (.tooShort 4), store))
    ∧ (∀ m, b.message = some m → m.length = 141 →
        postThought store b now = (.validationFailed (.tooLong 141), store)) := by
  refine ⟨?_, ?_, ?_⟩
  · cases hb : b.message with
    | none => simp [postThought, hb]
    | some m =>
        simp only [postThought, hb, validateMessage]
        split_ifs with h1 h2 h3 <;> simp <;> omega
  · intro m hm hlen
    simp [postThought, hm, validateMessage, hlen]
  · intro m hm hlen
    simp [postThought, hm, validateMessage, hlen]

/-- Witness for C1 at concrete inputs: the empty store, message "abcd"
(length 4, rejected as too short) and message "abcde" (length 5,
accepted). -/
theorem c1_create_length_validation_witness :
    postThought ⟨[], 0⟩ ⟨some "abcd", none, none⟩ 0
      = (.validationFailed (.tooShort 4), ⟨[], 0⟩)
    ∧ (∃ t s', postThought ⟨[], 0⟩ ⟨some "abcde", none, none⟩ 0
        = (.created t, s')) :=
  ⟨(c1_create_length_validation ⟨[], 0⟩ 0 ⟨some "abcd", none, none⟩).2.1
      "abcd" rfl rfl,
   (c1_create_length_validation ⟨[], 0⟩ 0 ⟨some "abcde", none, none⟩).1.mpr
      ⟨"abcde", rfl, by decide, by decide⟩⟩

/-- Claim C2: a like with action "add" on an existing record answers 200
with the record whose hearts counter is exactly one higher, and iterating
the add action n times on a record that starts at hearts = 0 yields
hearts = n. -/
theorem c2_add_increments (store : Store) (id : Nat) (t : Thought)
    (h : store.thoughts.find? (fun u => u.id == id) = some t) :
    likeThought store id "add"
      = (.ok { t with hearts := t.hearts + 1 },
         { store with thoughts := applyInc id 1 store.thoughts })
    ∧ (Response.ok { t with hearts := t.hearts + 1 }).status = 200
    ∧ (∀ n, (addNTimes store id n).thoughts.find? (fun u => u.id == id)
        = some { t with hearts := t.hearts + n })
    ∧ (∀ n, t.hearts = 0 →
        (addNTimes store id n).thoughts.find? (fun u => u.id == id)
          = some { t with hearts := (n : Int) }) := by
  refine ⟨likeThought_add_of_found store id t h, rfl,
    fun n => addNTimes_find? store id t h n, fun n h0 => ?_⟩
  rw [addNTimes_find? store id t h n, h0]
  simp

/-- Witness for C2 on `store0`: one add yields hearts = 1 and three adds
yield hearts = 3. -/
theorem c2_add_increments_witness :
    likeThought store0 0 "add"
      = (.ok { t0 with hearts := t0.hearts + 1 },
         { store0 with thoughts := applyInc 0 1 store0.thoughts })
    ∧ (addNTimes store0 0 3).thoughts.find? (fun u => u.id == 0)
      = some { t0 with hearts := (3 : Int) } :=
  ⟨(c2_add_increments store0 0 t0 (by decide)).1,
   (c2_add_increments store0 0 t0 (by decide)).2.2.2 3 rfl⟩

/-- Claim C3: the schema declares the floor hearts >= 0 (`heartsFloor`),
and the stored record can satisfy it with hearts = 0, yet the like path's
raw $inc bypasses document validation: action "remove" on that record
succeeds (200) and returns the record at hearts = -1, violating the
declared floor instead of being rejected. -/
theorem c3_floor_not_preserved (store : Store) (id : Nat) (t : Thought)
    (hfind : store.thoughts.find? (fun u => u.id == id) = some t)
    (h0 : t.hearts = 0) :
    heartsFloor t
    ∧ (likeThought store id "remove").1 = .ok { t with hearts := -1 }
    ∧ ¬ heartsFloor { t with hearts := -1 } := by
  refine ⟨by simp [heartsFloor, h0], ?_, by simp [heartsFloor]⟩
  rw [likeThought_remove_of_found store id t hfind]
  simp [h0]

/-- Witness for C3 on `store0`: removing a like from the record with
hearts = 0 produces hearts = -1. -/
theorem c3_floor_not_preserved_witness :
    heartsFloor t0
    ∧ (likeThought store0 0 "remove").1 = .ok { t0 with hearts := -1 }
    ∧ ¬ heartsFloor { t0 with hearts := -1 } :=
  c3_floor_not_preserved store0 0 t0 (by decide) rfl

/-- Claim C4: for every store the list endpoint answers 200 with at most
20 records sorted by createdAt descending (newest first); on the store
of 25 creations (`store25`) it returns exactly 20 records, namely the 20
most recent creations (`expected25`: createdAt 24 down to 5, newest
first). -/
theorem c4_list_recent :
    (∀ store : Store, ∃ l : List Thought,
      getThoughts store = .okList l
      ∧ (Response.okList l).status = 200
      ∧ l.length ≤ 20
      ∧ l.Sorted byRecent)
    ∧ getThoughts store25 = .okList expected25
    ∧ expected25.length = 20 := by
  refine ⟨?_, by decide, by decide⟩
  intro store
  refine ⟨_, rfl, rfl, List.length_take_le 20 _, ?_⟩
  exact ((List.sorted_insertionSort byRecent store.thoughts).sublist
    (List.take_sublist 20 _))

/-- Claim C5: a like request whose action is neither "add" nor "remove"
is answered with the 400 invalid-action error and the store is returned
untouched: no record changes. -/
theorem c5_invalid_action (store : Store) (id : Nat) (action : String)
    (h1 : action ≠ "add") (h2 : action ≠ "remove") :
    likeThought store id action
      = (.badRequest "Invalid action. Use \x27add\x27 or \x27remove\x27.",
         store)
    ∧ (likeThought store id action).1.status = 400
    ∧ (likeThought store id action).2 = store := by
  refine ⟨?_, ?_, ?_⟩ <;> simp [likeThought, h1, h2, Response.status]

/-- Witness for C5: action "toggle" on `store0` is rejected and the store
is unchanged. -/
theorem c5_invalid_action_witness :
    likeThought store0 0 "toggle"
      = (.badRequest "Invalid action. Use \x27add\x27 or \x27remove\x27.",
         store0)
    ∧ (likeThought store0 0 "toggle").1.status = 400
    ∧ (likeThought store0 0 "toggle").2 = store0 :=
  c5_invalid_action store0 0 "toggle" (by decide) (by decide)

/-- Claim C6: a like request with a valid action ("add" or "remove")
whose id matches no stored record is answered with 404 and the store is
unchanged. -/
theorem c6_not_found (store : Store) (id : Nat) (action : String)
    (hval : action = "add" ∨ action = "remove")
    (h : ∀ t ∈ store.thoughts, t.id ≠ id) :
    likeThought store id action = (.notFound, store)
    ∧ Response.notFound.status = 404 := by
  refine ⟨?_, rfl⟩
  have hfind : store.thoughts.find? (fun u => u.id == id) = none := by
    rw [List.find?_eq_none]
    intro x hx
    simpa using h x hx
  rcases hval with h3 | h3 <;> subst h3
  · have hfind2 := find?_applyInc store.thoughts id 1
    rw [hfind] at hfind2
    simp only [Option.map_none'] at hfind2
    simp [likeThought, hfind2]
  · have hfind2 := find?_applyInc store.thoughts id (-1)
    rw [hfind] at hfind2
    simp only [Option.map_none'] at hfind2
    simp [likeThought, hfind2]

/-- Witness for C6: an add on id 7, absent from `store0`, answers 404. -/
theorem c6_not_found_witness :
    likeThought store0 7 "add" = (.notFound, store0)
    ∧ Response.notFound.status = 404 :=
  c6_not_found store0 7 "add" (Or.inl rfl) (by decide)

/-- Claim C7: on every successful create, the server assigns the id
(the store's next id) and the creation time, the persisted record has
hearts = 0, its createdAt is at or after the moment the call was issued,
the record is appended to the store, and the full record is returned
with status 201. -/
theorem c7_create_success (store : Store) (b : RequestBody) (now : Nat)
    (t : Thought) (s' : Store)
    (h : postThought store b now = (.created t, s')) :
    t.id = store.nextId
    ∧ t.hearts = 0
    ∧ t.createdAt = now
    ∧ now ≤ t.createdAt
    ∧ s'.thoughts = store.thoughts ++ [t]
    ∧ s'.nextId = store.nextId + 1
    ∧ (Response.created t).status = 201 := by
  obtain ⟨h1, h2, h3, h4, h5⟩ := postThought_created_inv store b now t s' h
  exact ⟨h1, h2, h3, le_of_eq h3.symm, h4, h5, rfl⟩

/-- Witness for C7: creating "abcde" at time 7 in the empty store. -/
theorem c7_create_success_witness :
    ({ id := 0, message := "abcde", hearts := 0, createdAt := 7 } :
        Thought).id = (⟨[], 0⟩ : Store).nextId
    ∧ ({ id := 0, message := "abcde", hearts := 0, createdAt := 7 } :
        Thought).hearts = 0
    ∧ ({ id := 0, message := "abcde", hearts := 0, createdAt := 7 } :
        Thought).createdAt = 7 :=
  let h := c7_create_success ⟨[], 0⟩ ⟨some "abcde", none, none⟩ 7
    { id := 0, message := "abcde", hearts := 0, createdAt := 7 }
    ⟨[{ id := 0, message := "abcde", hearts := 0, createdAt := 7 }], 1⟩ rfl
  ⟨h.1, h.2.1, h.2.2.1⟩

/-- Claim C8: every create validation failure names the violated
constraint — required (message absent, or empty, which mongoose's string
required check also rejects), minimum length, or maximum length — and the
length errors carry and render the observed length of the submitted
message. -/
theorem c8_validation_error_detail (store : Store) (b : RequestBody)
    (now : Nat) (e : ValidationError) (s' : Store)
    (h : postThought store b now = (.validationFailed e, s')) :
    (e = .required
      ∧ (b.message = none ∨ ∃ m, b.message = some m ∧ m.length = 0))
    ∨ (∃ m, b.message = some m ∧ 0 < m.length ∧ m.length < 5
        ∧ e = .tooShort m.length
        ∧ validationMessage e
          = "Message must be at least 5 characters. Your message has "
            ++ toString m.length ++ " characters.")
    ∨ (∃ m, b.message = some m ∧ 140 < m.length
        ∧ e = .tooLong m.length
        ∧ validationMessage e
          = "The maximum length of a message is 140 characters. Your message has "
            ++ toString m.length ++ " characters.") := by
  cases hb : b.message with
  | none =>
      simp only [postThought, hb, Prod.mk.injEq,
        Response.validationFailed.injEq] at h
      exact Or.inl ⟨h.1.symm, Or.inl rfl⟩
  | some m =>
      simp only [postThought, hb, validateMessage] at h
      split_ifs at h with h1 h2 h3
      · simp only [Prod.mk.injEq, Response.validationFailed.injEq] at h
        exact Or.inl ⟨h.1.symm, Or.inr ⟨m, rfl, h1⟩⟩
      · simp only [Prod.mk.injEq, Response.validationFailed.injEq] at h
        refine Or.inr (Or.inl ⟨m, rfl, ?_, h2, h.1.symm, ?_⟩)
        · omega
        · rw [← h.1, validationMessage]
      · simp only [Prod.mk.injEq, Response.validationFailed.injEq] at h
        refine Or.inr (Or.inr ⟨m, rfl, ?_, h.1.symm, ?_⟩)
        · omega
        · rw [← h.1, validationMessage]
      · simp at h

/-- Witness for C8: a length-4 message yields the minimum-length error
rendering the observed length 4. -/
theorem c8_validation_error_detail_witness :
    ((ValidationError.tooShort 4) = .required
      ∧ ((some "abcd" : Option String) = none
          ∨ ∃ m, (some "abcd" : Option String) = some m ∧ m.length = 0))
    ∨ (∃ m, (some "abcd" : Option String) = some m ∧ 0 < m.length
        ∧ m.length < 5 ∧ (ValidationError.tooShort 4) = .tooShort m.length
        ∧ validationMessage (ValidationError.tooShort 4)
          = "Message must be at least 5 characters. Your message has "
            ++ toString m.length ++ " characters.")
    ∨ (∃ m, (some "abcd" : Option String) = some m ∧ 140 < m.length
        ∧ (ValidationError.tooShort 4) = .tooLong m.length
        ∧ validationMessage (ValidationError.tooShort 4)
          = "The maximum length of a message is 140 characters. Your message has "
            ++ toString m.length ++ " characters.") :=
  c8_validation_error_detail ⟨[], 0⟩ ⟨some "abcd", none, none⟩ 0
    (.tooShort 4) ⟨[], 0⟩ rfl

/-- Claim C9: like/unlike operations never change id, message or
createdAt and never delete a record: any sequence of like requests
preserves the skeleton (id, message, createdAt) of every stored record
and the record count, and a single valid like changes the matched
record's hearts by exactly +1 (add) or -1 (remove). -/
theorem c9_like_frame (store : Store) (ops : List (Nat × String)) :
    (runLikes store ops).thoughts.map skeleton
      = store.thoughts.map skeleton
    ∧ (runLikes store ops).thoughts.length = store.thoughts.length
    ∧ (∀ id t, store.thoughts.find? (fun u => u.id == id) = some t →
        (likeThought store id "add").2.thoughts.find? (fun u => u.id == id)
            = some { t with hearts := t.hearts + 1 }
        ∧ (likeThought store id "remove").2.thoughts.find?
              (fun u => u.id == id)
            = some { t with hearts := t.hearts - 1 }) := by
  refine ⟨runLikes_frame ops store, ?_, ?_⟩
  · have hlen := congrArg List.length (runLikes_frame ops store)
    simpa using hlen
  · intro id t h
    constructor
    · rw [likeThought_add_of_found store id t h]
      dsimp only
      rw [find?_applyInc, h]
      simp
    · rw [likeThought_remove_of_found store id t h]
      dsimp only
      rw [find?_applyInc, h]
      have harith : t.hearts + -1 = t.hearts - 1 := by ring
      simp [harith]

/-- Witness for C9: a three-request sequence on `store0` preserves the
skeletons, and a single add on the stored record bumps hearts to 1. -/
theorem c9_like_frame_witness :
    (runLikes store0 [(0, "add"), (0, "remove"), (0, "toggle")]).thoughts.map
        skeleton = store0.thoughts.map skeleton
    ∧ (likeThought store0 0 "add").2.thoughts.find? (fun u => u.id == 0)
      = some { t0 with hearts := t0.hearts + 1 } :=
  ⟨(c9_like_frame store0 [(0, "add"), (0, "remove"), (0, "toggle")]).1,
   ((c9_like_frame store0 []).2.2 0 t0 (by decide)).1⟩

/-- Claim C10: the create handler reads only the message field of the
request body, so two bodies that agree on message — whatever hearts or
createdAt a client also sends — produce identical responses and stores;
on success the record's hearts and createdAt are the server-assigned
values 0 and now. -/
theorem c10_create_reads_only_message (store : Store) (now : Nat)
    (b1 b2 : RequestBody) (hm : b1.message = b2.message) :
    postThought store b1 now = postThought store b2 now
    ∧ (∀ t s', postThought store b1 now = (.created t, s') →
        t.hearts = 0 ∧ t.createdAt = now ∧ t.id = store.nextId) := by
  constructor
  · unfold postThought
    rw [hm]
  · intro t s' h
    obtain ⟨h1, h2, h3, _, _⟩ := postThought_created_inv store b1 now t s' h
    exact ⟨h2, h3, h1⟩

/-- Witness for C10: a body that also smuggles hearts = 99 and
createdAt = 123 behaves exactly like the body carrying only the same
message. -/
theorem c10_create_reads_only_message_witness :
    postThought ⟨[], 0⟩ ⟨some "abcde", some 99, some 123⟩ 7
      = postThought ⟨[], 0⟩ ⟨some "abcde", none, none⟩ 7 :=
  (c10_create_reads_only_message ⟨[], 0⟩ 7 ⟨some "abcde", some 99, some 123⟩
    ⟨some "abcde", none, none⟩ rfl).1
